import Mathlib

/-!
Shallow embedding of the ethpandaops/lab backend (Python) used to check the
natural-language specification against the code.

Sources embedded here:
- `src/backend/lab/modules/beacon/processors/slot.py`
  (`Node.extract_username`, `transform_slot_data_for_storage`,
   `OptimizedSlotData.to_dict`, `SlotProcessor._calculate_target_backlog_slot`,
   `SlotProcessor._get_processor_state`, `SlotProcessor.process_slot`,
   `SlotProcessor._run_middle_processor`, `SlotProcessor._run_backlog_processor`)
- `src/backend/lab/core/state.py` (`StateManager._write_state_to_s3`)
- `src/backend/lab/core/storage.py` (`S3Storage.exists`)
- `src/backend/lab/ethereum/network.py` (`EthereumNetwork.get_current_fork`,
  fork table built in `EthereumNetwork.initialize`)
- `src/backend/lab/ethereum/time.py` (`WallClock.SLOTS_PER_EPOCH`)

Conventions: Python ints are `Int` (or `Nat` where the source guarantees
nonnegative values, e.g. propagation times filtered to `0..12000` ms and
validator indices); Python `//` on `Int` is `Int.fdiv` (floor division);
Python dicts are association lists in key-insertion order; fallible Python
code returns `Except String`; Python `sorted` is a stable sort, modelled with
`List.insertionSort`.
-/

namespace Lab

/-- JSON-like values, the payload type for artifacts and `state.json` documents. -/
inductive JsonV where
  | null
  | str (s : String)
  | int (n : Int)
  | bool (b : Bool)
  | arr (elems : List JsonV)
  | obj (fields : List (String × JsonV))

/-- Python dict read `d.get(k)` over an association list in insertion order. -/
def lookup? {κ α : Type} [DecidableEq κ] : List (κ × α) → κ → Option α
  | [], _ => none
  | (k, v) :: rest, key => if k = key then some v else lookup? rest key

/-- Python dict write `d[k] = v`: update in place when the key exists,
append a new entry otherwise (dicts keep key-insertion order). -/
def dictSet {κ α : Type} [DecidableEq κ] : List (κ × α) → κ → α → List (κ × α)
  | [], key, v => [(key, v)]
  | (k, w) :: rest, key, v =>
    if k = key then (k, v) :: rest else (k, w) :: dictSet rest key v

/-- Python `str.split(sep)` for a one-character separator: splits at every
occurrence of the separator, keeping empty segments (`"x".split("/") == ["x"]`,
`"".split("/") == [""]`, `"a//b".split("/") == ["a","","b"]`). -/
def pySplit (sep : Char) : List Char → List (List Char)
  | [] => [[]]
  | c :: rest =>
    if c = sep then [] :: pySplit sep rest
    else
      match pySplit sep rest with
      | [] => [[c]]
      | p :: ps => (c :: p) :: ps

/-- Python substring containment `needle in hay`. -/
def hasSubstr (needle : List Char) : List Char → Bool
  | [] => needle.isPrefixOf []
  | c :: rest => needle.isPrefixOf (c :: rest) || hasSubstr needle rest

/-- Node with its geo data (slot.py `Node`).  Coordinates come from the
external geonamescache gazetteer; they are modelled as opaque integer pairs
supplied by a lookup parameter (no claim inspects them). -/
structure Node where
  name : String
  username : String
  geo_city : String
  geo_country : String
  geo_continent_code : String
  geo_latitude : Option Int
  geo_longitude : Option Int
  deriving DecidableEq

/-- Node.extract_username (slot.py): split on "/", return "" when there are
fewer than two segments, else "ethpandaops" when the name contains that token,
else the second segment. -/
def Node.extract_username (name : String) : String :=
  let parts := (pySplit '/' name.toList).map String.mk
  if parts.length < 2 then ""
  else if hasSubstr "ethpandaops".toList name.toList then "ethpandaops"
  else parts.getD 1 ""

/-- Lookup into the external gazetteer used by `Node.get_coordinates`
(city, country, continent code ↦ optional coordinates). -/
def GeoLookup : Type := String → String → String → Option (Int × Int)

/-- Node construction as performed in `transform_slot_data_for_storage`:
`Node.__init__` derives the username from the name and geocodes the location
(the username and coordinates are never passed explicitly there). -/
def Node.make (geo : GeoLookup) (name city country continent : String) : Node :=
  { name := name
    username := Node.extract_username name
    geo_city := city
    geo_country := country
    geo_continent_code := continent
    geo_latitude := (geo city country continent).map Prod.fst
    geo_longitude := (geo city country continent).map Prod.snd }

/-- Outcome of the boto3 `head_object` call inside `S3Storage.exists`. -/
inductive S3HeadResult where
  | ok
  | err (msg : String)
  deriving DecidableEq

/-- S3Storage.exists (storage.py): issues `head_object` and returns `True` on
success; the bare `except Exception` turns ANY failure (missing key or
transient storage error alike) into `False`. -/
def s3_exists (headResult : S3HeadResult) : Bool :=
  match headResult with
  | .ok => true
  | .err _ => false

/-- Behaviour of S3 `head_object` against a bucket holding `store`:
success exactly when the key is present, a NoSuchKey-style error otherwise. -/
def s3_head (store : List String) (key : String) : S3HeadResult :=
  if key ∈ store then .ok else .err "404 Not Found"

/-- StateManager._write_state_to_s3 (state.py): download the current
`state.json` document (any read failure yields an empty document), overwrite
only this module's sub-map (`full_state[self.name] = self._state`) and write
the result back with `store_atomic`.  The returned document is the body of
that write. -/
def write_state_to_s3 (readResult : Option (List (String × JsonV)))
    (name : String) (moduleState : JsonV) : List (String × JsonV) :=
  let full_state :=
    match readResult with
    | some doc => doc
    | none => []
  dictSet full_state name moduleState

/-- WallClock.SLOTS_PER_EPOCH (time.py). -/
def SLOTS_PER_EPOCH : Nat := 32

/-- Parsed network configuration fields used by the fork logic
(network.py `NetworkConfig`); fork epochs are nonnegative ints. -/
structure NetworkConfig where
  altair_fork_epoch : Nat
  bellatrix_fork_epoch : Nat
  capella_fork_epoch : Nat
  deneb_fork_epoch : Nat
  electra_fork_epoch : Option Nat
  seconds_per_slot : Nat
  deriving DecidableEq

/-- Fork table built by `EthereumNetwork.initialize` (network.py): genesis,
altair, bellatrix, capella, deneb in that insertion order, plus electra when
its epoch is configured. -/
def forks (cfg : NetworkConfig) : List (String × Nat) :=
  [("genesis", 0),
   ("altair", cfg.altair_fork_epoch),
   ("bellatrix", cfg.bellatrix_fork_epoch),
   ("capella", cfg.capella_fork_epoch),
   ("deneb", cfg.deneb_fork_epoch)] ++
  (match cfg.electra_fork_epoch with
   | some e => [("electra", e)]
   | none => [])

/-- EthereumNetwork.get_fork_epoch (network.py). -/
def get_fork_epoch (cfg : NetworkConfig) (fork_name : String) : Option Nat :=
  lookup? (forks cfg) fork_name

/-- EthereumNetwork.get_current_fork (network.py) for an initialized network
with the slot given explicitly: checks the forks in reverse chronological
order against `epoch = slot // SLOTS_PER_EPOCH`. -/
def get_current_fork (cfg : NetworkConfig) (slot : Nat) : String :=
  let epoch := slot / SLOTS_PER_EPOCH
  if cfg.electra_fork_epoch.any (fun e => decide (e ≤ epoch)) then "electra"
  else if cfg.deneb_fork_epoch ≤ epoch then "deneb"
  else if cfg.capella_fork_epoch ≤ epoch then "capella"
  else if cfg.bellatrix_fork_epoch ≤ epoch then "bellatrix"
  else if cfg.altair_fork_epoch ≤ epoch then "altair"
  else "genesis"

/-- Modelled from the spec: "get_current_fork(s) is the largest fork whose
epoch ≤ s/32" — the last entry of the chronological fork table whose epoch is
at most the given epoch (genesis as fallback). -/
def largest_fork_at_most (cfg : NetworkConfig) (epoch : Nat) : String :=
  (((forks cfg).filter (fun p => decide (p.2 ≤ epoch))).getLastD ("genesis", 0)).1

/-- Monotone fork schedule: 0 ≤ altair ≤ bellatrix ≤ capella ≤ deneb ≤ electra
whenever electra is present (spec invariant I2). -/
def fork_epochs_monotone (cfg : NetworkConfig) : Prop :=
  cfg.altair_fork_epoch ≤ cfg.bellatrix_fork_epoch ∧
  cfg.bellatrix_fork_epoch ≤ cfg.capella_fork_epoch ∧
  cfg.capella_fork_epoch ≤ cfg.deneb_fork_epoch ∧
  ∀ e ∈ cfg.electra_fork_epoch, cfg.deneb_fork_epoch ≤ e

/-- BacklogConfig (slot.py): at most one of the three targets may be set. -/
structure BacklogConfig where
  fork_name : Option String
  target_date : Option Int
  target_slot : Option Int
  deriving DecidableEq

/-- The BacklogConfig actually installed by `SlotProcessor.__init__`:
`BacklogConfig(fork_name="deneb")`, hardcoded regardless of configuration. -/
def slot_processor_backlog_config : BacklogConfig :=
  { fork_name := some "deneb", target_date := none, target_slot := none }

/-- SlotProcessor._calculate_target_backlog_slot (slot.py).  `target_date` is
a unix timestamp; Python `//` is floor division (`Int.fdiv`).  The unknown
fork name raises a ValueError, modelled as the error branch. -/
def calculate_target_backlog_slot (bc : BacklogConfig) (cfg : NetworkConfig)
    (genesis_time current_slot : Int) : Except String Int :=
  match bc.fork_name with
  | some fn =>
    match get_fork_epoch cfg fn with
    | some e => .ok ((e : Int) * 32)
    | none => .error ("Unknown fork name: " ++ fn)
  | none =>
    match bc.target_date with
    | some ts => .ok (Int.fdiv (ts - genesis_time) (cfg.seconds_per_slot : Int))
    | none =>
      match bc.target_slot with
      | some s => .ok s
      | none =>
        .ok (current_slot - Int.fdiv (1 * 24 * 60 * 60) (cfg.seconds_per_slot : Int))

/-- Middle-phase slice of `SlotProcessorState` (slot.py). -/
structure MiddleState where
  target_slot : Int
  last_processed_slot : Int
  deriving DecidableEq

/-- Fresh middle-phase state from `SlotProcessor._get_processor_state`
("middle" branch): `target_slot = head_target_slot - 300`,
`last_processed_slot = max(0, target_slot - 300)`. -/
def init_middle_state (head_target_slot : Int) : MiddleState :=
  let target_slot := head_target_slot - 300
  let start_slot := max 0 (target_slot - 300)
  { target_slot := target_slot, last_processed_slot := start_slot }

/-- Loop of `SlotProcessor._run_middle_processor` (stop event never set):
while `current_slot < target_slot`, attempt the slot and advance by one —
on success AND on failure/exception alike (`current_slot += 1` in every
branch).  Fuel makes the recursion structural; `run_middle_processor` supplies
enough fuel for the real loop. -/
def middle_loop (process : Int → Bool) : Nat → Int → Int → Int
  | 0, current_slot, _ => current_slot
  | fuel + 1, current_slot, target_slot =>
    if current_slot < target_slot then
      let _ := process current_slot
      middle_loop process fuel (current_slot + 1) target_slot
    else current_slot

/-- Final `current_slot` of the middle loop started from a given state. -/
def run_middle_processor (process : Int → Bool) (st : MiddleState) : Int :=
  middle_loop process (st.target_slot - st.last_processed_slot).toNat
    st.last_processed_slot st.target_slot

/-- Backward-phase slice of `SlotProcessorState` (slot.py). -/
structure BackwardState where
  target_slot : Int
  current_slot : Int
  deriving DecidableEq

/-- SlotProcessor.process_backlog_slot (slot.py): calls `process_slot`, whose
Bool result is discarded; its `except` branch re-raises, but `process_slot`
catches every exception and returns a Bool, so this returns normally for
either result. -/
def process_backlog_slot (processResult : Bool) : Except String Unit :=
  let _ := processResult
  .ok ()

/-- One iteration of the `_run_backlog_processor` while-loop body (slot.py):
when there is backlog left, attempt the slot; if `process_backlog_slot`
returns normally, decrement `current_slot` and save the state; only an
escaping exception (unreachable, see `process_backlog_slot`) would leave the
state unsaved. -/
def backlog_iteration (st : BackwardState) (processResult : Bool) : BackwardState :=
  if st.current_slot > st.target_slot then
    match process_backlog_slot processResult with
    | .ok _ => { st with current_slot := st.current_slot - 1 }
    | .error _ => st
  else st

/-- Row of the block-seen / p2p-first-seen queries (slot.py
`SeenAtSlotTimeData`). -/
structure SeenAtSlotTimeData where
  slot_time_ms : Int
  meta_client_name : String
  meta_client_geo_city : String
  meta_client_geo_country : String
  meta_client_geo_continent_code : String
  deriving DecidableEq

/-- Row of the blob-seen queries (slot.py `BlobSeenAtSlotTimeData`). -/
structure BlobSeenAtSlotTimeData where
  slot_time_ms : Int
  blob_index : Int
  meta_client_name : String
  meta_client_geo_city : String
  meta_client_geo_country : String
  meta_client_geo_continent_code : String
  deriving DecidableEq

/-- Attestation window (slot.py `AttestationWindow`); times are propagation
milliseconds from slot start, nonnegative by the query filter `0..12000`. -/
structure AttestationWindow where
  start_ms : Nat
  end_ms : Nat
  validator_indices : List Nat
  deriving DecidableEq

/-- Optimized slot data (slot.py `OptimizedSlotData`): the artifact value
built by `transform_slot_data_for_storage`.  `block` and `proposer` hold the
already-converted dictionaries (`BlockData.to_dict`, `ProposerData.to_dict`). -/
structure OptimizedSlotData where
  slot : Int
  network : String
  processed_at : String
  processing_time_ms : Int
  block : List (String × JsonV)
  proposer : List (String × JsonV)
  entity : Option String
  nodes : List (String × Node)
  block_seen_times : List (String × Int)
  blob_seen_times : List (String × List (Int × Int))
  block_first_seen_p2p_times : List (String × Int)
  blob_first_seen_p2p_times : List (String × List (Int × Int))
  attestation_windows : List AttestationWindow
  maximum_attestation_votes : Nat

/-- JSON encoding of an optional int (`None` becomes `null`). -/
def optIntJson : Option Int → JsonV
  | some i => .int i
  | none => .null

/-- JSON encoding of an optional string (`None` becomes `null`). -/
def optStrJson : Option String → JsonV
  | some s => .str s
  | none => .null

/-- AttestationWindow.to_dict (slot.py). -/
def AttestationWindow.to_dict (w : AttestationWindow) : JsonV :=
  .obj [("start_ms", .int w.start_ms),
        ("end_ms", .int w.end_ms),
        ("validator_indices", .arr (w.validator_indices.map fun i => .int i))]

/-- Node.to_dict (slot.py). -/
def Node.to_dict (n : Node) : JsonV :=
  .obj [("name", .str n.name),
        ("username", .str n.username),
        ("geo", .obj [("city", .str n.geo_city),
                      ("country", .str n.geo_country),
                      ("continent", .str n.geo_continent_code),
                      ("latitude", optIntJson n.geo_latitude),
                      ("longitude", optIntJson n.geo_longitude)])]

/-- Pydantic attribute lookup `self.<a>` on an `OptimizedSlotData` value:
succeeds exactly on the declared field names (already in their JSON form,
with the conversions the `to_dict` dict literal applies inline) and raises
`AttributeError` on any other name. -/
def OptimizedSlotData.attr (d : OptimizedSlotData) : String → Except String JsonV
  | "slot" => .ok (.int d.slot)
  | "network" => .ok (.str d.network)
  | "processed_at" => .ok (.str d.processed_at)
  | "processing_time_ms" => .ok (.int d.processing_time_ms)
  | "block" => .ok (.obj d.block)
  | "proposer" => .ok (.obj d.proposer)
  | "entity" => .ok (optStrJson d.entity)
  | "nodes" => .ok (.obj (d.nodes.map fun p => (p.1, p.2.to_dict)))
  | "block_seen_times" => .ok (.obj (d.block_seen_times.map fun p => (p.1, .int p.2)))
  | "blob_seen_times" =>
    .ok (.obj (d.blob_seen_times.map fun p =>
      (p.1, .obj (p.2.map fun q => (toString q.1, .int q.2)))))
  | "block_first_seen_p2p_times" =>
    .ok (.obj (d.block_first_seen_p2p_times.map fun p => (p.1, .int p.2)))
  | "blob_first_seen_p2p_times" =>
    .ok (.obj (d.blob_first_seen_p2p_times.map fun p =>
      (p.1, .obj (p.2.map fun q => (toString q.1, .int q.2)))))
  | "attestation_windows" => .ok (.arr (d.attestation_windows.map AttestationWindow.to_dict))
  | "maximum_attestation_votes" => .ok (.int d.maximum_attestation_votes)
  | a => .error ("AttributeError: " ++ a)

/-- OptimizedSlotData.to_dict (slot.py): the dict literal is evaluated left to
right, each `self.<a>` being an attribute lookup.  The source reads
`self.network_name` for the "network" entry, while the field is declared
`network`. -/
def OptimizedSlotData.to_dict (d : OptimizedSlotData) : Except String JsonV := do
  let slotV ← d.attr "slot"
  let networkV ← d.attr "network_name"
  let processedAtV ← d.attr "processed_at"
  let processingTimeV ← d.attr "processing_time_ms"
  let blockV ← d.attr "block"
  let proposerV ← d.attr "proposer"
  let entityV ← d.attr "entity"
  let nodesV ← d.attr "nodes"
  let blockSeenV ← d.attr "block_seen_times"
  let blobSeenV ← d.attr "blob_seen_times"
  let blockP2pV ← d.attr "block_first_seen_p2p_times"
  let blobP2pV ← d.attr "blob_first_seen_p2p_times"
  let windowsV ← d.attr "attestation_windows"
  let maxVotesV ← d.attr "maximum_attestation_votes"
  .ok (.obj [("slot", slotV),
             ("network", networkV),
             ("processed_at", processedAtV),
             ("processing_time_ms", processingTimeV),
             ("block", blockV),
             ("proposer", proposerV),
             ("entity", entityV),
             ("nodes", nodesV),
             ("timings", .obj [("block_seen", blockSeenV),
                               ("blob_seen", blobSeenV),
                               ("block_first_seen_p2p", blockP2pV),
                               ("blob_first_seen_p2p", blobP2pV)]),
             ("attestations", .obj [("windows", windowsV),
                                    ("maximum_votes", maxVotesV)])])

/-- Helper `add_node` inside `transform_slot_data_for_storage` (slot.py):
insert a freshly constructed Node when the client name is not yet present. -/
def add_node (geo : GeoLookup) (nodes : List (String × Node))
    (name city country continent : String) : List (String × Node) :=
  if (lookup? nodes name).isSome then nodes
  else nodes ++ [(name, Node.make geo name city country continent)]

/-- Bucket of a propagation time: `time_ms - (time_ms % 50)`, rounding down to
the nearest absolute multiple of 50 ms (slot.py, attestation grouping). -/
def bucketOf (time_ms : Nat) : Nat := time_ms - time_ms % 50

/-- One step of the attestation grouping loop (slot.py): ensure the bucket
entry exists, then append the validator index to it. -/
def add_vote (buckets : List (Nat × List Nat)) (bucket validator_index : Nat) :
    List (Nat × List Nat) :=
  match buckets with
  | [] => [(bucket, [validator_index])]
  | (k, vs) :: rest =>
    if k = bucket then (k, vs ++ [validator_index]) :: rest
    else (k, vs) :: add_vote rest bucket validator_index

/-- The `attestation_buckets` dict built in `transform_slot_data_for_storage`
(slot.py): fold the vote map in iteration order. -/
def attestation_buckets (attestation_votes : List (Nat × Nat)) : List (Nat × List Nat) :=
  attestation_votes.foldl (fun buckets p => add_vote buckets (bucketOf p.2) p.1) []

/-- The `attestation_windows` list built in `transform_slot_data_for_storage`
(slot.py): one window per bucket in ascending key order, `end_ms = start + 50`,
indices sorted ascending (`sorted`, a stable sort). -/
def attestation_windows_of (attestation_votes : List (Nat × Nat)) : List AttestationWindow :=
  let buckets := attestation_buckets attestation_votes
  (List.insertionSort (· ≤ ·) (buckets.map Prod.fst)).map fun start_ms =>
    { start_ms := start_ms
      end_ms := start_ms + 50
      validator_indices := List.insertionSort (· ≤ ·) ((lookup? buckets start_ms).getD []) }

/-- transform_slot_data_for_storage (slot.py): fuse the per-slot query results
into one `OptimizedSlotData`.  Dict comprehensions and nested-dict builders
are folds of `dictSet` in iteration order. -/
def transform_slot_data_for_storage (geo : GeoLookup) (slot : Int) (network : String)
    (processed_at : String) (processing_time_ms : Int)
    (block_data proposer_data : List (String × JsonV))
    (maximum_attestation_votes : Nat) (entity : Option String)
    (block_seen_at_slot_time_data : List SeenAtSlotTimeData)
    (blob_seen_at_slot_time_data : List BlobSeenAtSlotTimeData)
    (block_first_seen_in_p2p_slot_time_data : List SeenAtSlotTimeData)
    (blob_first_seen_in_p2p_slot_time_data : List BlobSeenAtSlotTimeData)
    (attestation_votes : List (Nat × Nat)) : OptimizedSlotData :=
  let nodes0 := block_seen_at_slot_time_data.foldl
    (fun ns d => add_node geo ns d.meta_client_name d.meta_client_geo_city
      d.meta_client_geo_country d.meta_client_geo_continent_code) []
  let nodes1 := blob_seen_at_slot_time_data.foldl
    (fun ns d => add_node geo ns d.meta_client_name d.meta_client_geo_city
      d.meta_client_geo_country d.meta_client_geo_continent_code) nodes0
  let nodes2 := block_first_seen_in_p2p_slot_time_data.foldl
    (fun ns d => add_node geo ns d.meta_client_name d.meta_client_geo_city
      d.meta_client_geo_country d.meta_client_geo_continent_code) nodes1
  let nodes := blob_first_seen_in_p2p_slot_time_data.foldl
    (fun ns d => add_node geo ns d.meta_client_name d.meta_client_geo_city
      d.meta_client_geo_country d.meta_client_geo_continent_code) nodes2
  let block_seen_times := block_seen_at_slot_time_data.foldl
    (fun m d => dictSet m d.meta_client_name d.slot_time_ms) []
  let block_first_seen_p2p_times := block_first_seen_in_p2p_slot_time_data.foldl
    (fun m d => dictSet m d.meta_client_name d.slot_time_ms) []
  let blob_seen_times := blob_seen_at_slot_time_data.foldl
    (fun m d => dictSet m d.meta_client_name
      (dictSet ((lookup? m d.meta_client_name).getD []) d.blob_index d.slot_time_ms)) []
  let blob_first_seen_p2p_times := blob_first_seen_in_p2p_slot_time_data.foldl
    (fun m d => dictSet m d.meta_client_name
      (dictSet ((lookup? m d.meta_client_name).getD []) d.blob_index d.slot_time_ms)) []
  { slot := slot
    network := network
    processed_at := processed_at
    processing_time_ms := processing_time_ms
    block := block_data
    proposer := proposer_data
    entity := entity
    nodes := nodes
    block_seen_times := block_seen_times
    blob_seen_times := blob_seen_times
    block_first_seen_p2p_times := block_first_seen_p2p_times
    blob_first_seen_p2p_times := blob_first_seen_p2p_times
    attestation_windows := attestation_windows_of attestation_votes
    maximum_attestation_votes := maximum_attestation_votes }

/-- Proposer data (slot.py `ProposerData`). -/
structure ProposerData where
  slot : Int
  proposer_pubkey : String
  proposer_validator_index : Int
  deriving DecidableEq

/-- ProposerData.to_dict (slot.py). -/
def ProposerData.to_dict (p : ProposerData) : List (String × JsonV) :=
  [("slot", .int p.slot),
   ("proposer_pubkey", .str p.proposer_pubkey),
   ("proposer_validator_index", .int p.proposer_validator_index)]

/-- Block data (slot.py `BlockData`); datetimes are kept as their isoformat
strings, which is how `to_dict` serializes them. -/
structure BlockData where
  slot : Int
  slot_start_date_time : String
  epoch : Int
  epoch_start_date_time : String
  block_root : String
  block_version : String
  block_total_bytes : Option Int
  block_total_bytes_compressed : Option Int
  parent_root : String
  state_root : String
  proposer_index : Int
  eth1_data_block_hash : String
  eth1_data_deposit_root : String
  execution_payload_block_hash : String
  execution_payload_block_number : Int
  execution_payload_fee_recipient : String
  execution_payload_base_fee_per_gas : Option Int
  execution_payload_blob_gas_used : Option Int
  execution_payload_excess_blob_gas : Option Int
  execution_payload_gas_limit : Option Int
  execution_payload_gas_used : Option Int
  execution_payload_state_root : String
  execution_payload_parent_hash : String
  execution_payload_transactions_count : Option Int
  execution_payload_transactions_total_bytes : Option Int
  execution_payload_transactions_total_bytes_compressed : Option Int
  deriving DecidableEq

/-- BlockData.to_dict (slot.py): `model_dump` plus isoformat datetimes. -/
def BlockData.to_dict (b : BlockData) : List (String × JsonV) :=
  [("slot", .int b.slot),
   ("slot_start_date_time", .str b.slot_start_date_time),
   ("epoch", .int b.epoch),
   ("epoch_start_date_time", .str b.epoch_start_date_time),
   ("block_root", .str b.block_root),
   ("block_version", .str b.block_version),
   ("block_total_bytes", optIntJson b.block_total_bytes),
   ("block_total_bytes_compressed", optIntJson b.block_total_bytes_compressed),
   ("parent_root", .str b.parent_root),
   ("state_root", .str b.state_root),
   ("proposer_index", .int b.proposer_index),
   ("eth1_data_block_hash", .str b.eth1_data_block_hash),
   ("eth1_data_deposit_root", .str b.eth1_data_deposit_root),
   ("execution_payload_block_hash", .str b.execution_payload_block_hash),
   ("execution_payload_block_number", .int b.execution_payload_block_number),
   ("execution_payload_fee_recipient", .str b.execution_payload_fee_recipient),
   ("execution_payload_base_fee_per_gas", optIntJson b.execution_payload_base_fee_per_gas),
   ("execution_payload_blob_gas_used", optIntJson b.execution_payload_blob_gas_used),
   ("execution_payload_excess_blob_gas", optIntJson b.execution_payload_excess_blob_gas),
   ("execution_payload_gas_limit", optIntJson b.execution_payload_gas_limit),
   ("execution_payload_gas_used", optIntJson b.execution_payload_gas_used),
   ("execution_payload_state_root", .str b.execution_payload_state_root),
   ("execution_payload_parent_hash", .str b.execution_payload_parent_hash),
   ("execution_payload_transactions_count", optIntJson b.execution_payload_transactions_count),
   ("execution_payload_transactions_total_bytes",
     optIntJson b.execution_payload_transactions_total_bytes),
   ("execution_payload_transactions_total_bytes_compressed",
     optIntJson b.execution_payload_transactions_total_bytes_compressed)]

/-- Results the warehouse produces for one `process_slot` run: each fetch
either succeeds with rows or raises (empty row sets for `get_block_data` /
`get_proposer_data` raise inside the fetcher; `get_proposer_entity` returns
`None` on empty rows). -/
structure Warehouse where
  block_data : Except String BlockData
  proposer_data : Except String ProposerData
  maximum_attestation_votes : Except String Nat
  proposer_entity : Except String (Option String)
  block_seen_at_slot_time : Except String (List SeenAtSlotTimeData)
  blob_seen_at_slot_time : Except String (List BlobSeenAtSlotTimeData)
  block_first_seen_in_p2p_slot_time : Except String (List SeenAtSlotTimeData)
  blob_first_seen_in_p2p_slot_time : Except String (List BlobSeenAtSlotTimeData)
  attestation_votes : Except String (List (Nat × Nat))

/-- Observable outcome of one `process_slot` call: its Bool result, the
object-store contents afterwards, whether any warehouse query ran, and
whether the artifact key was published (written). -/
structure ProcResult where
  ok : Bool
  store : List String
  queried : Bool
  published : Bool
  deriving DecidableEq

/-- ModuleContext.storage_key (module.py) as used by
`SlotProcessor._get_storage_key`: `"/".join([module_name, "slots", network,
f"slot.json"])`. -/
def storage_key (module_name network : String) (slot : Int) : String :=
  module_name ++ "/slots/" ++ network ++ "/" ++ toString slot ++ ".json"

/-- SlotProcessor.process_slot (slot.py).  `head` is the outcome of the
`storage.exists` probe's `head_object`; `store_result` the outcome of the
final `storage.store` upload; `processor_name` is `self.name`
(`f"slot_network_name"`), which the source passes as the transform's
`network` argument.  The catch-all `except` makes the function total: every
failure path returns `False`.  Publication happens only when the artifact
dict was produced and the upload succeeded. -/
def process_slot (geo : GeoLookup) (module_name network processor_name : String)
    (slot : Int) (processed_at : String) (processing_time_ms : Int)
    (wh : Warehouse) (store_result : Except String Unit)
    (head : S3HeadResult) (store : List String) : ProcResult :=
  let key := storage_key module_name network slot
  if s3_exists head then
    { ok := true, store := store, queried := false, published := false }
  else
    match wh.block_data, wh.proposer_data with
    | .ok bd, .ok pd =>
      match wh.maximum_attestation_votes, wh.proposer_entity,
            wh.block_seen_at_slot_time, wh.blob_seen_at_slot_time,
            wh.block_first_seen_in_p2p_slot_time,
            wh.blob_first_seen_in_p2p_slot_time, wh.attestation_votes with
      | .ok mav, .ok ent, .ok bs, .ok blbs, .ok bp2p, .ok blbp2p, .ok av =>
        let data := transform_slot_data_for_storage geo slot processor_name
          processed_at processing_time_ms bd.to_dict pd.to_dict mav ent
          bs blbs bp2p blbp2p av
        match data.to_dict with
        | .ok _ =>
          match store_result with
          | .ok _ => { ok := true, store := store ++ [key], queried := true, published := true }
          | .error _ => { ok := false, store := store, queried := true, published := false }
        | .error _ => { ok := false, store := store, queried := true, published := false }
      | _, _, _, _, _, _, _ => { ok := false, store := store, queried := true, published := false }
    | _, _ => { ok := false, store := store, queried := true, published := false }

/-- One `process_slot` call against an honest object store: the existence
probe's `head_object` succeeds exactly when the key is stored. -/
def process_slot_run (geo : GeoLookup) (module_name network processor_name : String)
    (slot : Int) (processed_at : String) (processing_time_ms : Int)
    (wh : Warehouse) (store_result : Except String Unit)
    (store : List String) : ProcResult :=
  process_slot geo module_name network processor_name slot processed_at
    processing_time_ms wh store_result
    (s3_head store (storage_key module_name network slot)) store

/-- Number of publications a `process_slot` outcome performed (0 or 1). -/
def pubCount (r : ProcResult) : Nat := if r.published then 1 else 0

/-! Helper lemmas shared by the claim theorems. -/

/-- The `self.network_name` attribute lookup in `OptimizedSlotData.to_dict`
fails for every value: no such field is declared on the model. -/
theorem to_dict_eq_error (d : OptimizedSlotData) :
    d.to_dict = .error "AttributeError: network_name" := rfl

/-- Lookup after a dict write at the same key returns the written value. -/
theorem lookup_dictSet_self {κ α : Type} [DecidableEq κ]
    (d : List (κ × α)) (k : κ) (v : α) :
    lookup? (dictSet d k v) k = some v := by
  induction d with
  | nil => simp [dictSet, lookup?]
  | cons p rest ih =>
    obtain ⟨k0, v0⟩ := p
    by_cases h : k0 = k <;> simp [dictSet, lookup?, h, ih]

/-- Lookup after a dict write at a different key is unchanged. -/
theorem lookup_dictSet_ne {κ α : Type} [DecidableEq κ]
    (d : List (κ × α)) (k key : κ) (v : α) (h : k ≠ key) :
    lookup? (dictSet d key v) k = lookup? d k := by
  induction d with
  | nil => simp [dictSet, lookup?, Ne.symm h]
  | cons p rest ih =>
    obtain ⟨k0, v0⟩ := p
    by_cases h0 : k0 = key <;> by_cases h1 : k0 = k <;>
      simp_all [dictSet, lookup?]

/-- Once the remaining distance fits in the fuel, the middle loop runs
forward one slot at a time and stops exactly at the target (or immediately
when it is already past it). -/
theorem middle_loop_reaches_target (process : Int → Bool) :
    ∀ (fuel : Nat) (current target : Int), (target - current).toNat ≤ fuel →
      middle_loop process fuel current target = max current target := by
  intro fuel
  induction fuel with
  | zero =>
    intro current target h
    have hct : target ≤ current := by omega
    simp [middle_loop]
    omega
  | succ n ih =>
    intro current target h
    by_cases hlt : current < target
    · have step : middle_loop process (n + 1) current target
          = middle_loop process n (current + 1) target := by
        simp [middle_loop, hlt]
      rw [step, ih (current + 1) target (by omega)]
      omega
    · simp [middle_loop, hlt]
      omega

/-! Claim theorems. -/

/-- C1: for every published SlotArtifact the claim expects
`OptimizedSlotData.to_dict` to yield a dictionary whose "network" entry is the
`network` field, without error.  The code instead reads the undeclared
attribute `network_name`, so `to_dict` raises `AttributeError` for EVERY
well-formed value and never produces the dictionary. -/
theorem C1_to_dict_always_raises (d : OptimizedSlotData) :
    d.to_dict = .error "AttributeError: network_name" ∧
    ∀ fields, d.to_dict ≠ .ok (.obj fields) := by
  refine ⟨to_dict_eq_error d, fun fields h => ?_⟩
  rw [to_dict_eq_error d] at h
  cases h

/-- C2 counterexample: in the backlog phase a failed `process_slot`
(result `false`) still decrements and saves `current_slot` — from 1000 the
persisted value is 999, not the unchanged 1000 the claim requires. -/
theorem C2_counterexample :
    (backlog_iteration ⟨900, 1000⟩ false).current_slot = 999 ∧
    (999 : Int) ≠ 1000 := by decide

/-- C2 amended: every backlog iteration with backlog remaining decrements
`current_slot` by one and saves the state, whether `process_slot` succeeded
or failed — `process_backlog_slot` discards the Bool result and
`process_slot` never raises, so the exception path that would skip the
decrement is unreachable. -/
theorem C2_backlog_decrements_every_attempt (st : BackwardState) (r : Bool)
    (h : st.target_slot < st.current_slot) :
    (backlog_iteration st r).current_slot = st.current_slot - 1 := by
  simp [backlog_iteration, process_backlog_slot, h]

/-- C2 witness: a concrete backlog state with backlog remaining. -/
theorem C2_backlog_decrements_every_attempt_witness :
    (900 : Int) < 1000 ∧
    (backlog_iteration ⟨900, 1000⟩ false).current_slot = 1000 - 1 :=
  ⟨by decide, C2_backlog_decrements_every_attempt ⟨900, 1000⟩ false (by decide)⟩

/-- C4 counterexample: for head target H = 1000 the freshly initialized
middle state has `target_slot = 700` and `last_processed_slot = 400`; the
claim requires the walk to start at H − 300 = 700 and to end at
`target_slot = H = 1000`. -/
theorem C4_counterexample :
    (init_middle_state 1000).target_slot = 700 ∧ (700 : Int) ≠ 1000 ∧
    (init_middle_state 1000).last_processed_slot = 400 ∧
    (400 : Int) ≠ 1000 - 300 := by decide

/-- C4 amended: for head target H (≥ 300), the fresh middle state targets
H − 300 and starts at max(0, H − 600); the middle loop walks forward one slot
at a time (advancing on success and failure alike) and exits exactly when it
reaches `target_slot = H − 300`. -/
theorem C4_middle_fresh_state (H : Int) (hH : 300 ≤ H) (process : Int → Bool) :
    (init_middle_state H).target_slot = H - 300 ∧
    (init_middle_state H).last_processed_slot = max 0 (H - 600) ∧
    run_middle_processor process (init_middle_state H) = H - 300 := by
  refine ⟨rfl, ?_, ?_⟩
  · show max 0 (H - 300 - 300) = max 0 (H - 600)
    omega
  · unfold run_middle_processor
    rw [middle_loop_reaches_target process _ _ _ (le_refl _)]
    show max (max 0 (H - 300 - 300)) (H - 300) = H - 300
    omega

/-- C4 witness: head target 1000 gives target slot 700. -/
theorem C4_middle_fresh_state_witness :
    (300 : Int) ≤ 1000 ∧
    ((init_middle_state 1000).target_slot = 1000 - 300 ∧
     (init_middle_state 1000).last_processed_slot = max 0 (1000 - 600) ∧
     run_middle_processor (fun _ => false) (init_middle_state 1000) = 1000 - 300) :=
  ⟨by decide, C4_middle_fresh_state 1000 (by decide) (fun _ => false)⟩

/-- Mainnet-like fork schedule used for concrete counterexamples. -/
def mainnet_config : NetworkConfig :=
  { altair_fork_epoch := 74240
    bellatrix_fork_epoch := 144896
    capella_fork_epoch := 194048
    deneb_fork_epoch := 269568
    electra_fork_epoch := some 364032
    seconds_per_slot := 12 }

/-- C5 counterexample: with no backlog target set by configuration the
processor computes the deneb fork slot 269568 × 32 = 8626176, not the slot
one day before the current wall-clock slot (11000000 − 7200 = 10992800). -/
theorem C5_counterexample :
    calculate_target_backlog_slot slot_processor_backlog_config mainnet_config
      1606824023 11000000 = .ok 8626176 ∧
    (8626176 : Int) ≠ 11000000 - Int.fdiv (1 * 24 * 60 * 60) 12 := by
  constructor
  · rfl
  · decide

/-- C5 amended: `SlotProcessor.__init__` hardcodes
`BacklogConfig(fork_name="deneb")` regardless of configuration, so the backlog
target is always the deneb fork epoch × 32; the "1 day ago" default branch of
`_calculate_target_backlog_slot` is taken only for a BacklogConfig with all
three fields unset, which the processor never constructs. -/
theorem C5_backlog_target_is_deneb (cfg : NetworkConfig) (genesis current : Int) :
    calculate_target_backlog_slot slot_processor_backlog_config cfg genesis current
      = .ok ((cfg.deneb_fork_epoch : Int) * 32) ∧
    ∀ bc : BacklogConfig, bc.fork_name = none → bc.target_date = none →
      bc.target_slot = none →
      calculate_target_backlog_slot bc cfg genesis current
        = .ok (current - Int.fdiv (1 * 24 * 60 * 60) (cfg.seconds_per_slot : Int)) := by
  constructor
  · rfl
  · intro bc h1 h2 h3
    simp [calculate_target_backlog_slot, h1, h2, h3]

/-- C5 witness: the all-unset BacklogConfig on the mainnet-like schedule. -/
theorem C5_backlog_target_is_deneb_witness :
    calculate_target_backlog_slot ⟨none, none, none⟩ mainnet_config 1606824023 11000000
      = .ok (11000000 - Int.fdiv (1 * 24 * 60 * 60) (mainnet_config.seconds_per_slot : Int)) :=
  (C5_backlog_target_is_deneb mainnet_config 1606824023 11000000).2
    ⟨none, none, none⟩ rfl rfl rfl

/-- C7: a StateStore flush writes back the downloaded document with only this
module's sub-map replaced; every other module's sub-map is untouched. -/
theorem C7_flush_frame (doc : List (String × JsonV)) (name : String) (M : JsonV)
    (k : String) (hk : k ≠ name) :
    lookup? (write_state_to_s3 (some doc) name M) k = lookup? doc k ∧
    lookup? (write_state_to_s3 (some doc) name M) name = some M := by
  unfold write_state_to_s3
  exact ⟨lookup_dictSet_ne doc k name M hk, lookup_dictSet_self doc name M⟩

/-- C7 witness: a two-module document where the beacon flush leaves the xatu
sub-map alone. -/
theorem C7_flush_frame_witness :
    ("xatu" : String) ≠ "beacon" ∧
    (lookup? (write_state_to_s3 (some [("beacon", JsonV.int 1), ("xatu", JsonV.int 2)])
        "beacon" (JsonV.int 9)) "xatu"
      = lookup? [("beacon", JsonV.int 1), ("xatu", JsonV.int 2)] "xatu" ∧
     lookup? (write_state_to_s3 (some [("beacon", JsonV.int 1), ("xatu", JsonV.int 2)])
        "beacon" (JsonV.int 9)) "beacon" = some (JsonV.int 9)) :=
  ⟨by decide,
   C7_flush_frame [("beacon", JsonV.int 1), ("xatu", JsonV.int 2)] "beacon"
     (JsonV.int 9) "xatu" (by decide)⟩

/-- C8 counterexample: "ethpandaops" (no slash) contains the token, so the
claim maps it to "ethpandaops"; the code checks the segment count first and
returns "". -/
theorem C8_counterexample :
    hasSubstr "ethpandaops".toList "ethpandaops".toList = true ∧
    Node.extract_username "ethpandaops" = "" ∧
    ("" : String) ≠ "ethpandaops" := by decide

/-- C8 amended: `extract_username` is a pure function of the name that first
returns "" when there are fewer than two slash-separated segments, and only
then returns "ethpandaops" when the name contains that token, else the second
segment; the three example inputs of the claim behave as stated. -/
theorem C8_extract_username (name : String) :
    ((pySplit '/' name.toList).length < 2 → Node.extract_username name = "") ∧
    (2 ≤ (pySplit '/' name.toList).length →
      hasSubstr "ethpandaops".toList name.toList = true →
      Node.extract_username name = "ethpandaops") ∧
    (2 ≤ (pySplit '/' name.toList).length →
      hasSubstr "ethpandaops".toList name.toList = false →
      Node.extract_username name = ((pySplit '/' name.toList).map String.mk).getD 1 "") ∧
    Node.extract_username "ethpandaops/xyz/abc" = "ethpandaops" ∧
    Node.extract_username "pub/alice/node-1" = "alice" ∧
    Node.extract_username "x" = "" := by
  refine ⟨?_, ?_, ?_, by decide, by decide, by decide⟩
  · intro h
    simp only [Node.extract_username]
    rw [if_pos (by simpa using h)]
  · intro h1 h2
    simp only [Node.extract_username]
    rw [if_neg (by simpa using Nat.not_lt.mpr h1), if_pos h2]
  · intro h1 h2
    simp only [Node.extract_username]
    rw [if_neg (by simpa using Nat.not_lt.mpr h1), if_neg (by simpa using h2)]

/-- C8 witness: the second-segment case at "pub/alice/node-1". -/
theorem C8_extract_username_witness :
    2 ≤ (pySplit '/' "pub/alice/node-1".toList).length ∧
    hasSubstr "ethpandaops".toList "pub/alice/node-1".toList = false ∧
    Node.extract_username "pub/alice/node-1"
      = ((pySplit '/' "pub/alice/node-1".toList).map String.mk).getD 1 "" :=
  ⟨by decide, by decide,
   (C8_extract_username "pub/alice/node-1").2.2.1 (by decide) (by decide)⟩

/-- C10: `S3Storage.exists` is total and never raises — every `head_object`
failure (missing key and transient error alike) yields `False`; consequently
`process_slot` treats any storage error during its existence probe exactly
like a missing key ("not yet processed"). -/
theorem C10_exists_never_raises :
    s3_exists .ok = true ∧
    (∀ msg : String, s3_exists (.err msg) = false) ∧
    (∀ (msg : String) (geo : GeoLookup) (mn net pn : String) (slot : Int)
       (pa : String) (ptm : Int) (wh : Warehouse) (sr : Except String Unit)
       (store : List String),
       process_slot geo mn net pn slot pa ptm wh sr (.err msg) store
         = process_slot geo mn net pn slot pa ptm wh sr (.err "NoSuchKey") store) :=
  ⟨rfl, fun _ => rfl, fun _ _ _ _ _ _ _ _ _ _ _ => rfl⟩

/-- No `process_slot` call ever changes the store or publishes: the skip path
and all failure paths leave it alone, and the would-be publication path is
unreachable because `to_dict` raises first (see `to_dict_eq_error`). -/
theorem process_slot_no_publish (geo : GeoLookup) (mn net pn : String)
    (slot : Int) (pa : String) (ptm : Int) (wh : Warehouse)
    (sr : Except String Unit) (head : S3HeadResult) (store : List String) :
    (process_slot geo mn net pn slot pa ptm wh sr head store).published = false ∧
    (process_slot geo mn net pn slot pa ptm wh sr head store).store = store := by
  unfold process_slot
  split
  · exact ⟨rfl, rfl⟩
  · split
    · split
      · simp [to_dict_eq_error]
      · exact ⟨rfl, rfl⟩
    · exact ⟨rfl, rfl⟩

/-- When the artifact key is already stored, the existence probe answers ok. -/
theorem s3_head_mem {store : List String} {key : String} (h : key ∈ store) :
    s3_head store key = .ok := by
  simp [s3_head, h]

/-- C6: when the slot's storage key already exists, `process_slot` returns ok
without any warehouse query or store, the key still exists after a second
call, and (for any starting store) two consecutive calls publish the key at
most once in this process. -/
theorem C6_idempotent_skip (geo : GeoLookup) (mn net pn : String) (slot : Int)
    (pa : String) (ptm : Int) (wh : Warehouse) (sr : Except String Unit)
    (store : List String) (h : storage_key mn net slot ∈ store) :
    (process_slot_run geo mn net pn slot pa ptm wh sr store
       = { ok := true, store := store, queried := false, published := false }) ∧
    (process_slot_run geo mn net pn slot pa ptm wh sr
       (process_slot_run geo mn net pn slot pa ptm wh sr store).store
       = { ok := true, store := store, queried := false, published := false }) ∧
    storage_key mn net slot ∈
      (process_slot_run geo mn net pn slot pa ptm wh sr
        (process_slot_run geo mn net pn slot pa ptm wh sr store).store).store ∧
    (∀ store0 : List String,
      pubCount (process_slot_run geo mn net pn slot pa ptm wh sr store0) +
      pubCount (process_slot_run geo mn net pn slot pa ptm wh sr
        (process_slot_run geo mn net pn slot pa ptm wh sr store0).store) ≤ 1) := by
  have hskip : process_slot_run geo mn net pn slot pa ptm wh sr store
      = { ok := true, store := store, queried := false, published := false } := by
    unfold process_slot_run
    rw [s3_head_mem h]
    rfl
  refine ⟨hskip, ?_, ?_, ?_⟩
  · rw [hskip]
    exact hskip
  · rw [hskip, hskip]
    exact h
  · intro store0
    have q : ∀ st : List String,
        (process_slot geo mn net pn slot pa ptm wh sr
          (s3_head st (storage_key mn net slot)) st).published = false :=
      fun st => (process_slot_no_publish geo mn net pn slot pa ptm wh sr
        (s3_head st (storage_key mn net slot)) st).1
    simp [pubCount, process_slot_run, q]

/-- C9: on an initialized network with a monotone fork schedule,
`get_current_fork` returns the largest fork whose epoch is at most
`slot / 32`. -/
theorem C9_get_current_fork (cfg : NetworkConfig) (h : fork_epochs_monotone cfg)
    (slot : Nat) :
    get_current_fork cfg slot = largest_fork_at_most cfg (slot / SLOTS_PER_EPOCH) := by
  obtain ⟨hab, hbc, hcd, hde⟩ := h
  unfold get_current_fork largest_fork_at_most
  cases hel : cfg.electra_fork_epoch with
  | none =>
    by_cases h4 : cfg.deneb_fork_epoch ≤ slot / SLOTS_PER_EPOCH <;>
    by_cases h3 : cfg.capella_fork_epoch ≤ slot / SLOTS_PER_EPOCH <;>
    by_cases h2 : cfg.bellatrix_fork_epoch ≤ slot / SLOTS_PER_EPOCH <;>
    by_cases h1 : cfg.altair_fork_epoch ≤ slot / SLOTS_PER_EPOCH <;>
    simp [forks, hel, h1, h2, h3, h4]
  | some e =>
    have hde2 : cfg.deneb_fork_epoch ≤ e := hde e hel
    by_cases h5 : e ≤ slot / SLOTS_PER_EPOCH <;>
    by_cases h4 : cfg.deneb_fork_epoch ≤ slot / SLOTS_PER_EPOCH <;>
    by_cases h3 : cfg.capella_fork_epoch ≤ slot / SLOTS_PER_EPOCH <;>
    by_cases h2 : cfg.bellatrix_fork_epoch ≤ slot / SLOTS_PER_EPOCH <;>
    by_cases h1 : cfg.altair_fork_epoch ≤ slot / SLOTS_PER_EPOCH <;>
    simp [forks, hel, h1, h2, h3, h4, h5]

/-- C9 witness: the mainnet-like schedule at a slot in the deneb range. -/
theorem C9_get_current_fork_witness :
    fork_epochs_monotone mainnet_config ∧
    get_current_fork mainnet_config 9000000
      = largest_fork_at_most mainnet_config (9000000 / SLOTS_PER_EPOCH) := by
  have hmono : fork_epochs_monotone mainnet_config := by
    refine ⟨by decide, by decide, by decide, ?_⟩
    intro e he
    simp [mainnet_config] at he
    subst he
    decide
  exact ⟨hmono, C9_get_current_fork mainnet_config hmono 9000000⟩

/-- Validator indices landing in bucket `k`, in input order. -/
def bucketVals (votes : List (Nat × Nat)) (k : Nat) : List Nat :=
  (votes.filter fun p => decide (bucketOf p.2 = k)).map Prod.fst

/-- Lookup after one grouping step: the stepped bucket gains the index at the
end, every other bucket is unchanged. -/
theorem lookup_add_vote (bs : List (Nat × List Nat)) (b v k : Nat) :
    lookup? (add_vote bs b v) k =
      if k = b then some (((lookup? bs b).getD []) ++ [v]) else lookup? bs k := by
  induction bs with
  | nil =>
    by_cases h : k = b
    · simp [add_vote, lookup?, h]
    · simp [add_vote, lookup?, h, Ne.symm h]
  | cons p rest ih =>
    obtain ⟨k0, vs⟩ := p
    by_cases h0 : k0 = b <;> by_cases h1 : k = b <;> by_cases h2 : k0 = k <;>
      simp_all [add_vote, lookup?]

/-- Values of the grouping fold: each bucket collects, after whatever the
accumulator already held, exactly the indices of the votes that map to it,
in input order. -/
theorem lookup_buckets_foldl (votes : List (Nat × Nat)) :
    ∀ (bs : List (Nat × List Nat)) (k : Nat),
      (lookup? (votes.foldl (fun b p => add_vote b (bucketOf p.2) p.1) bs) k).getD []
        = (lookup? bs k).getD [] ++ bucketVals votes k := by
  induction votes with
  | nil => intro bs k; simp [bucketVals]
  | cons p rest ih =>
    intro bs k
    rw [List.foldl_cons, ih, lookup_add_vote]
    by_cases h : k = bucketOf p.2
    · simp [h, bucketVals, List.filter_cons]
    · simp [h, bucketVals, List.filter_cons, Ne.symm h]

/-- Key membership after one grouping step. -/
theorem mem_keys_add_vote (bs : List (Nat × List Nat)) (b v k : Nat) :
    k ∈ (add_vote bs b v).map Prod.fst ↔ (k ∈ bs.map Prod.fst ∨ k = b) := by
  induction bs with
  | nil => simp [add_vote, eq_comm]
  | cons p rest ih =>
    obtain ⟨k0, vs⟩ := p
    by_cases h0 : k0 = b <;> simp [add_vote, h0, ih] <;> tauto

/-- Key membership of the grouping fold: a bucket exists iff some vote maps
to it (or it was already in the accumulator). -/
theorem mem_keys_buckets_foldl (votes : List (Nat × Nat)) :
    ∀ (bs : List (Nat × List Nat)) (k : Nat),
      k ∈ (votes.foldl (fun b p => add_vote b (bucketOf p.2) p.1) bs).map Prod.fst
        ↔ k ∈ bs.map Prod.fst ∨ ∃ p ∈ votes, bucketOf p.2 = k := by
  induction votes with
  | nil => simp
  | cons p rest ih =>
    intro bs k
    rw [List.foldl_cons, ih, mem_keys_add_vote]
    simp only [List.exists_mem_cons_iff]
    constructor
    · rintro (⟨hb | he⟩ | hr)
      · exact Or.inl hb
      · exact Or.inr (Or.inl he.symm)
      · exact Or.inr (Or.inr hr)
    · rintro (hb | he | hr)
      · exact Or.inl (Or.inl hb)
      · exact Or.inl (Or.inr he.symm)
      · exact Or.inr hr

/-- Bucket values of `attestation_buckets`. -/
theorem lookup_attestation_buckets (votes : List (Nat × Nat)) (k : Nat) :
    (lookup? (attestation_buckets votes) k).getD [] = bucketVals votes k := by
  have h := lookup_buckets_foldl votes [] k
  simpa [attestation_buckets, lookup?] using h

/-- Bucket keys of `attestation_buckets`. -/
theorem mem_keys_attestation_buckets (votes : List (Nat × Nat)) (k : Nat) :
    k ∈ (attestation_buckets votes).map Prod.fst ↔ ∃ p ∈ votes, bucketOf p.2 = k := by
  have h := mem_keys_buckets_foldl votes [] k
  simpa [attestation_buckets] using h

/-- The indices of one bucket form a sublist of all vote keys. -/
theorem bucketVals_sublist (votes : List (Nat × Nat)) (k : Nat) :
    (bucketVals votes k).Sublist (votes.map Prod.fst) :=
  List.Sublist.map Prod.fst (List.filter_sublist votes)

/-- Membership in a bucket's indices. -/
theorem mem_bucketVals (votes : List (Nat × Nat)) (k v : Nat) :
    v ∈ bucketVals votes k ↔ ∃ t, (v, t) ∈ votes ∧ bucketOf t = k := by
  simp only [bucketVals, List.mem_map, List.mem_filter]
  constructor
  · rintro ⟨⟨a, b⟩, ⟨hmem, hb⟩, rfl⟩
    exact ⟨b, hmem, by simpa using hb⟩
  · rintro ⟨t, hmem, hb⟩
    exact ⟨(v, t), ⟨hmem, by simpa using hb⟩, rfl⟩

/-- C3 counterexample: for the nonempty vote map with the single entry
validator 1 at 120 ms (so F = 120), the produced window starts at 100 — an
absolute multiple of 50 ms — which is not of the form F + 50k. -/
theorem C3_counterexample :
    ([(1, 120)] : List (Nat × Nat)) ≠ [] ∧
    attestation_windows_of [(1, 120)] = [⟨100, 150, [1]⟩] ∧
    ¬ ∃ k : Nat, (100 : Nat) = 120 + 50 * k := by
  refine ⟨by decide, by decide, ?_⟩
  rintro ⟨k, hk⟩
  omega

/-- C3 amended: the windows produced by the transform are 50 ms buckets
aligned to absolute multiples of 50 (each `start_ms = t - t % 50` for some
input time t), not anchored at the minimum time F; `end_ms = start_ms + 50`;
the union of `validator_indices` over all windows equals the input key set;
and within each window the indices are strictly sorted ascending (hence
deduplicated), given that the input keys are distinct (a Python dict). -/
theorem C3_attestation_windows (votes : List (Nat × Nat))
    (hnd : (votes.map Prod.fst).Nodup) :
    (∀ w ∈ attestation_windows_of votes,
       (∃ p ∈ votes, w.start_ms = bucketOf p.2) ∧ w.end_ms = w.start_ms + 50) ∧
    (∀ v : Nat, (∃ w ∈ attestation_windows_of votes, v ∈ w.validator_indices)
       ↔ v ∈ votes.map Prod.fst) ∧
    (∀ w ∈ attestation_windows_of votes,
       List.Sorted (· < ·) w.validator_indices) := by
  have hperm := List.perm_insertionSort (α := Nat) (· ≤ ·)
    ((attestation_buckets votes).map Prod.fst)
  refine ⟨?_, ?_, ?_⟩
  · intro w hw
    obtain ⟨b, hb, rfl⟩ := List.mem_map.mp hw
    have hbk : b ∈ (attestation_buckets votes).map Prod.fst := hperm.mem_iff.mp hb
    obtain ⟨p, hp, hpb⟩ := (mem_keys_attestation_buckets votes b).mp hbk
    exact ⟨⟨p, hp, hpb.symm⟩, rfl⟩
  · intro v
    constructor
    · rintro ⟨w, hw, hv⟩
      obtain ⟨b, hb, rfl⟩ := List.mem_map.mp hw
      have hv2 : v ∈ (lookup? (attestation_buckets votes) b).getD [] :=
        (List.perm_insertionSort (· ≤ ·) _).mem_iff.mp hv
      rw [lookup_attestation_buckets] at hv2
      obtain ⟨t, hmem, _⟩ := (mem_bucketVals votes b v).mp hv2
      exact List.mem_map.mpr ⟨(v, t), hmem, rfl⟩
    · intro hv
      obtain ⟨p, hp, hfst⟩ := List.mem_map.mp hv
      obtain ⟨v0, t⟩ := p
      cases hfst
      have hbk : bucketOf t ∈ (attestation_buckets votes).map Prod.fst :=
        (mem_keys_attestation_buckets votes (bucketOf t)).mpr ⟨(v0, t), hp, rfl⟩
      refine ⟨_, List.mem_map.mpr ⟨bucketOf t, hperm.mem_iff.mpr hbk, rfl⟩, ?_⟩
      have hv2 : v0 ∈ (lookup? (attestation_buckets votes) (bucketOf t)).getD [] := by
        rw [lookup_attestation_buckets]
        exact (mem_bucketVals votes (bucketOf t) v0).mpr ⟨t, hp, rfl⟩
      exact (List.perm_insertionSort (· ≤ ·) _).mem_iff.mpr hv2
  · intro w hw
    obtain ⟨b, hb, rfl⟩ := List.mem_map.mp hw
    have hsorted : List.Sorted (· ≤ ·)
        (List.insertionSort (· ≤ ·) ((lookup? (attestation_buckets votes) b).getD [])) :=
      List.sorted_insertionSort (· ≤ ·) _
    have hnodup0 : ((lookup? (attestation_buckets votes) b).getD []).Nodup := by
      rw [lookup_attestation_buckets]
      exact (bucketVals_sublist votes b).nodup hnd
    have hnodup : (List.insertionSort (· ≤ ·)
        ((lookup? (attestation_buckets votes) b).getD [])).Nodup :=
      (List.perm_insertionSort (· ≤ ·) _).symm.nodup hnodup0
    exact hsorted.lt_of_le hnodup

/-- C3 witness: the scenario-2 style vote map with distinct validator keys. -/
theorem C3_attestation_windows_witness :
    (([(1, 120), (2, 140), (3, 175), (4, 200)] : List (Nat × Nat)).map Prod.fst).Nodup ∧
    (∀ w ∈ attestation_windows_of [(1, 120), (2, 140), (3, 175), (4, 200)],
       (∃ p ∈ ([(1, 120), (2, 140), (3, 175), (4, 200)] : List (Nat × Nat)),
          w.start_ms = bucketOf p.2) ∧ w.end_ms = w.start_ms + 50) ∧
    (∀ v : Nat, (∃ w ∈ attestation_windows_of [(1, 120), (2, 140), (3, 175), (4, 200)],
        v ∈ w.validator_indices)
       ↔ v ∈ ([(1, 120), (2, 140), (3, 175), (4, 200)] : List (Nat × Nat)).map Prod.fst) ∧
    (∀ w ∈ attestation_windows_of [(1, 120), (2, 140), (3, 175), (4, 200)],
       List.Sorted (· < ·) w.validator_indices) :=
  ⟨by decide,
   C3_attestation_windows [(1, 120), (2, 140), (3, 175), (4, 200)] (by decide)⟩

/-- Trivial gazetteer that resolves no location. -/
def geo_none : GeoLookup := fun _ _ _ => none

/-- Warehouse whose every fetch fails (connection down). -/
def down_warehouse : Warehouse :=
  { block_data := .error "down"
    proposer_data := .error "down"
    maximum_attestation_votes := .error "down"
    proposer_entity := .error "down"
    block_seen_at_slot_time := .error "down"
    blob_seen_at_slot_time := .error "down"
    block_first_seen_in_p2p_slot_time := .error "down"
    blob_first_seen_in_p2p_slot_time := .error "down"
    attestation_votes := .error "down" }

/-- C6 witness: a store already holding the key of slot 7654321. -/
theorem C6_idempotent_skip_witness :
    storage_key "beacon" "mainnet" 7654321 ∈ [storage_key "beacon" "mainnet" 7654321] ∧
    ((process_slot_run geo_none "beacon" "mainnet" "slot_mainnet" 7654321 "t" 5
        down_warehouse (.ok ()) [storage_key "beacon" "mainnet" 7654321]
        = { ok := true, store := [storage_key "beacon" "mainnet" 7654321],
            queried := false, published := false }) ∧
     (process_slot_run geo_none "beacon" "mainnet" "slot_mainnet" 7654321 "t" 5
        down_warehouse (.ok ())
        (process_slot_run geo_none "beacon" "mainnet" "slot_mainnet" 7654321 "t" 5
          down_warehouse (.ok ()) [storage_key "beacon" "mainnet" 7654321]).store
        = { ok := true, store := [storage_key "beacon" "mainnet" 7654321],
            queried := false, published := false }) ∧
     storage_key "beacon" "mainnet" 7654321 ∈
       (process_slot_run geo_none "beacon" "mainnet" "slot_mainnet" 7654321 "t" 5
         down_warehouse (.ok ())
         (process_slot_run geo_none "beacon" "mainnet" "slot_mainnet" 7654321 "t" 5
           down_warehouse (.ok ()) [storage_key "beacon" "mainnet" 7654321]).store).store ∧
     (∀ store0 : List String,
       pubCount (process_slot_run geo_none "beacon" "mainnet" "slot_mainnet" 7654321 "t" 5
         down_warehouse (.ok ()) store0) +
       pubCount (process_slot_run geo_none "beacon" "mainnet" "slot_mainnet" 7654321 "t" 5
         down_warehouse (.ok ())
         (process_slot_run geo_none "beacon" "mainnet" "slot_mainnet" 7654321 "t" 5
           down_warehouse (.ok ()) store0).store) ≤ 1)) :=
  ⟨List.mem_singleton.mpr rfl,
   C6_idempotent_skip geo_none "beacon" "mainnet" "slot_mainnet" 7654321 "t" 5
     down_warehouse (.ok ()) [storage_key "beacon" "mainnet" 7654321]
     (List.mem_singleton.mpr rfl)⟩

end Lab
